import Mathlib

/-!
Verification of the Diagnosis-to-Quest progression engine of the
uniflow backend.

The definitions below are a shallow embedding of the Python source:

* `app/api/vip.py` — the 20-question diagnosis battery, the per-answer
  score calculator `calc_score`, the per-category aggregation inside
  `complete_diagnosis`, the persistence fallback of `complete_diagnosis`,
  and the manual quest completion endpoint `complete_quest`;
* `app/api/quest.py` — quest initialization (`initialize_vip_quests`),
  checklist generation (`generate_quest_questions`) and evaluation
  (`evaluate_quest`);
* `app/agents/quest_agent.py` — `QuestAgent.evaluate_answers`, which
  splits the stored checklist by the submitted indices before consulting
  the external text oracle.

Machine reals: the source computes scores in Python floats.  Every value
that arises from the fixed battery (integer tier scores, slider values,
and their means over 3, 4 or 6 elements) is either exactly representable
or strictly inside a rounding interval of width far larger than the
representation error, so we embed the arithmetic in `ℚ`; `pyRound` below
is Python `round` (nearest, ties to even) on the exact rational.

External collaborators (the OpenAI text oracle, the Supabase client, the
clock, uuid generation) are parameters of the embedded operations, as the
specification treats them as black boxes.
-/

/-- A JSON-ish value submitted as a diagnosis answer (`req.answer: object`
in `save_diagnosis_answer`): a string, a number, or a list of strings. -/
inductive PyVal where
  | str (s : String)
  | num (v : ℚ)
  | list (l : List String)
deriving DecidableEq

/-- Digit characters to the natural number they denote. -/
def digitsVal (ds : List Char) : ℕ :=
  ds.foldl (fun acc c => 10 * acc + (c.toNat - 48)) 0

/-- Python `float(str)` on a character list: optional surrounding
whitespace, optional sign, decimal digits with an optional fractional
part.  (Python additionally accepts exponent notation and `inf`/`nan`,
forms the survey frontend never submits; they are out of scope of the
claims and parse to `none` here.) -/
def parseDecimalChars? (cs : List Char) : Option ℚ :=
  let t := ((cs.dropWhile Char.isWhitespace).reverse.dropWhile Char.isWhitespace).reverse
  let sgn : ℚ := if t.take 1 = ['-'] then -1 else 1
  let body := if t.take 1 = ['-'] ∨ t.take 1 = ['+'] then t.drop 1 else t
  let ip := body.takeWhile (fun c => c ≠ '.')
  let rest := body.dropWhile (fun c => c ≠ '.')
  if ip.all Char.isDigit then
    match rest with
    | [] =>
      if ip ≠ [] then some (sgn * (digitsVal ip : ℚ)) else none
    | _ :: fp =>
      if fp.all Char.isDigit ∧ (ip ≠ [] ∨ fp ≠ []) ∧ fp.all (fun c => c ≠ '.') then
        some (sgn * ((digitsVal ip : ℚ) + (digitsVal fp : ℚ) / 10 ^ fp.length))
      else none
  else none

/-- Python `float(answer)`: numbers pass through, numeric strings are
parsed, anything else raises (`TypeError`/`ValueError`), modelled as
`none`. -/
def pyFloat? : PyVal → Option ℚ
  | .num v => some v
  | .str s => parseDecimalChars? s.data
  | .list _ => none

/-- Python `str(answer)`.  A string answer is itself.  A numeric or list
answer renders as its textual repr (`3.0`, a bracketed list); no option
label declared in the battery collides with either form, so we abstract
those reprs by tagged strings equal only to themselves. -/
def pyStr : PyVal → String
  | .str s => s
  | .num v => "num:" ++ toString v
  | .list l => "list:" ++ String.intercalate (",") l

/-- One entry of `DIAGNOSIS_QUESTIONS` (`app/api/vip.py`). -/
structure Question where
  id : String
  question : String
  category : String
  type : String
  options : List String
  order : ℕ
deriving DecidableEq

/-- `SCORE_MAP` of `app/api/vip.py` together with the `.get(idx, 50)`
default used at its only call site: zero-based option index to score. -/
def SCORE_MAP (idx : ℕ) : ℚ :=
  if idx = 0 then 15
  else if idx = 1 then 40
  else if idx = 2 then 70
  else if idx = 3 then 100
  else 50

/-- The sentinel "none of the above" checkbox label (`"없음"`). -/
def noneOption : String := "없음"

/-- `calc_score` of `complete_diagnosis` (`app/api/vip.py` lines
291-326): map one (possibly missing) answer against the question policy
to a 0-100 score.  `answers` is the per-client session dictionary;
`answers.get(q_id)` missing yields the neutral 50.  The radio branch is
Python `options.index(str(answer))` (first exact string match, a
`ValueError` degrading to 50) fed through `SCORE_MAP.get`; the slider
branch clamps `float(answer) * 10` into `[0, 100]`; the checkbox branch
scores the selected list; any other shape falls to the final
`return 50.0`. -/
def calc_score (answers : String → Option PyVal) (q : Question) : ℚ :=
  match answers q.id with
  | none => 50
  | some answer =>
    if q.type = ("radio") ∧ q.options ≠ [] then
      match q.options.findIdx? (fun o => o == pyStr answer) with
      | some idx => SCORE_MAP idx
      | none => 50
    else if q.type = ("slider") then
      match pyFloat? answer with
      | some v => min 100 (max 0 (v * 10))
      | none => 50
    else if q.type = ("checkbox") ∧ q.options ≠ [] then
      match answer with
      | .list selected =>
        if noneOption ∈ selected then 90
        else if (selected.filter (fun s => s ≠ noneOption)).length = 0 then 50
        else max 10 (80 - 20 * ((selected.filter (fun s => s ≠ noneOption)).length : ℚ))
      | _ =>
        -- `isinstance(answer, list)` fails: `selected = []`, no sentinel,
        -- zero non-sentinel selections.
        50
    else 50

/-- Python `round` on the exact rational: nearest integer, ties to even. -/
def pyRound (x : ℚ) : ℤ :=
  if Int.fract x < 1/2 then ⌊x⌋
  else if 1/2 < Int.fract x then ⌊x⌋ + 1
  else if ⌊x⌋ % 2 = 0 then ⌊x⌋ else ⌊x⌋ + 1

/-- The local `avg` of `complete_diagnosis`:
`round(sum(lst) / len(lst)) if lst else 50`. -/
def avgScore (lst : List ℚ) : ℤ :=
  if lst.isEmpty then 50 else pyRound (lst.sum / (lst.length : ℚ))

/-- The fixed 20-question diagnosis battery `DIAGNOSIS_QUESTIONS`
(`app/api/vip.py` lines 204-231). -/
def DIAGNOSIS_QUESTIONS : List Question := [
  { id := "asset_1", question := "현재 월 순수익(수입 - 고정 지출)은 얼마나 됩니까?", category := "asset",
    type := "radio", options := ["적자 또는 0원", "1~50만원", "50~200만원", "200만원 이상"], order := 1 },
  { id := "asset_2", question := "현재 6개월 이상 생활 가능한 비상금(비상 자금)을 보유하고 있습니까?", category := "asset",
    type := "radio", options := ["없음", "1~3개월치", "3~6개월치", "6개월 이상"], order := 2 },
  { id := "asset_3", question := "부채(대출, 카드빚 등) 대비 자산 비율이 어떻게 됩니까?", category := "asset",
    type := "radio", options := ["부채가 자산을 초과", "부채 = 자산의 50% 이상", "부채 = 자산의 30% 미만", "부채 없음"], order := 3 },
  { id := "time_1", question := "하루 중 원하는 일에 쓸 수 있는 자유 시간은?", category := "time",
    type := "radio", options := ["1시간 미만", "1~3시간", "3~6시간", "6시간 이상"], order := 4 },
  { id := "time_2", question := "현재 비즈니스 운영이 나 없이도 하루 이상 돌아갈 수 있습니까?", category := "time",
    type := "radio", options := ["전혀 안됨, 내가 없으면 멈춤", "몇 시간은 가능", "하루~이틀 가능", "1주일 이상 가능"], order := 5 },
  { id := "time_3", question := "반복적으로 하는 업무 중 자동화되어 있는 비율은?", category := "time",
    type := "radio", options := ["10% 미만", "10~30%", "30~60%", "60% 이상"], order := 6 },
  { id := "body_1", question := "최근 한 달 기준, 규칙적인 운동(주 2회 이상)을 하고 있습니까?", category := "body",
    type := "radio", options := ["전혀 안함", "월 1~3회", "주 1회", "주 2회 이상"], order := 7 },
  { id := "body_2", question := "현재 수면의 질과 평균 수면 시간은?", category := "body",
    type := "radio", options := ["5시간 미만, 항상 피곤함", "5~6시간, 자주 피곤함", "6~7시간, 보통", "7~8시간, 개운함"], order := 8 },
  { id := "body_3", question := "현재 에너지 수준을 1~10으로 평가하면?", category := "body",
    type := "slider", options := [], order := 9 },
  { id := "emotion_1", question := "비즈니스/삶에 대한 전반적인 만족도는?", category := "emotion",
    type := "slider", options := [], order := 10 },
  { id := "emotion_2", question := "최근 번아웃(극도의 피로나 무기력)을 느낀 적이 있습니까?", category := "emotion",
    type := "radio", options := ["거의 매일", "주 2~3회", "월 1~2회", "거의 없음"], order := 11 },
  { id := "emotion_3", question := "스트레스 상황에서 회복하는 데 보통 얼마나 걸립니까?", category := "emotion",
    type := "radio", options := ["1주일 이상", "3~7일", "1~2일", "하루 이내"], order := 12 },
  { id := "emotion_4", question := "현재 가장 큰 정서적 걱정거리는? (복수 선택)", category := "emotion",
    type := "checkbox", options := ["수입/재정 불안", "인간관계", "건강", "미래에 대한 불확실성", "없음"], order := 13 },
  { id := "network_1", question := "사업/커리어와 관련하여 적극적으로 연락 가능한 인맥 수는?", category := "network",
    type := "radio", options := ["5명 미만", "5~20명", "20~50명", "50명 이상"], order := 14 },
  { id := "network_2", question := "최근 6개월 내 새로운 비즈니스 파트너 또는 협업 기회가 생겼습니까?", category := "network",
    type := "radio", options := ["없음", "관심 표현 수준", "미팅 진행함", "실제 협업 중"], order := 15 },
  { id := "network_3", question := "나를 타인에게 소개해줄 수 있는 지인이 몇 명이나 됩니까?", category := "network",
    type := "radio", options := ["1~2명", "3~5명", "6~10명", "11명 이상"], order := 16 },
  { id := "network_4", question := "온라인 또는 오프라인 커뮤니티/네트워크 활동을 하고 있습니까?", category := "network",
    type := "radio", options := ["전혀 없음", "가끔 참여", "정기적으로 참여", "직접 운영 중"], order := 17 },
  { id := "system_1", question := "나의 시간을 쓰지 않고도 발생하는 수익의 비율은?", category := "system",
    type := "radio", options := ["0%", "1~10%", "10~30%", "30% 이상"], order := 18 },
  { id := "system_2", question := "현재 비즈니스에 표준 운영 절차(SOP) 또는 매뉴얼이 있습니까?", category := "system",
    type := "radio", options := ["전혀 없음", "일부 있음", "주요 업무는 있음", "전 분야 문서화"], order := 19 },
  { id := "system_3", question := "현재 비즈니스의 확장 가능성을 어떻게 보십니까?", category := "system",
    type := "radio", options := ["나 혼자 감당이 한계", "1~2명 더 추가 가능", "팀 구조로 성장 가능", "무한 확장 가능한 구조"], order := 20 }
]

/-- The questions contributing to one category bucket.  The source loops
over all 20 questions appending each score to `cat_scores[q["category"]]`
(skipping unknown categories); per fixed key this is the filter below. -/
def categoryQuestions (cat : String) : List Question :=
  DIAGNOSIS_QUESTIONS.filter (fun q => q.category == cat)

/-- All scores collected in the bucket of `cat`. -/
def categoryScores (answers : String → Option PyVal) (cat : String) : List ℚ :=
  (categoryQuestions cat).map (calc_score answers)

/-- The six category scores and the overall score computed by
`complete_diagnosis`. -/
structure DiagScores where
  asset : ℤ
  time : ℤ
  body : ℤ
  emotion : ℤ
  network : ℤ
  system : ℤ
  overall : ℤ
deriving DecidableEq

/-- The aggregation step of `complete_diagnosis` (`app/api/vip.py` lines
328-350): per-category average of the question scores, then the average
of the six integer category scores. -/
def aggregateDiagnosis (answers : String → Option PyVal) : DiagScores :=
  let asset_score := avgScore (categoryScores answers ("asset"))
  let time_score := avgScore (categoryScores answers ("time"))
  let body_score := avgScore (categoryScores answers ("body"))
  let emotion_score := avgScore (categoryScores answers ("emotion"))
  let network_score := avgScore (categoryScores answers ("network"))
  let system_score := avgScore (categoryScores answers ("system"))
  { asset := asset_score, time := time_score, body := body_score,
    emotion := emotion_score, network := network_score, system := system_score,
    overall := avgScore [(asset_score : ℚ), (time_score : ℚ), (body_score : ℚ),
      (emotion_score : ℚ), (network_score : ℚ), (system_score : ℚ)] }

/-! ## Persistent data model

Rows of the `users`, `quests`, `health_index` and `notifications` tables
(`app/models/__init__.py`), restricted to the columns the progression
engine reads or writes.  Timestamps are abstract ticks (`ℕ`).  The
database session is a `DB` value; a query's `.first()` returns the first
matching element of the row list, and an ORM mutation followed by
`db.commit()` is a functional update of that row. -/

/-- A `users` row (the columns the quest/diagnosis flow touches). -/
structure User where
  id : String
  name : String
  created_by : Option String
deriving DecidableEq

/-- The checklist payload generated into `Quest.ai_questions`
(`{intro, subtitle, checklist, minChecks}`). -/
structure Checklist where
  intro : String
  subtitle : String
  checklist : List String
  minChecks : ℤ
deriving DecidableEq

/-- The oracle's evaluation payload stored into `Quest.ai_evaluation`
(`{passed, score, total, message, nextStep}`). -/
structure Evaluation where
  passed : Bool
  score : ℤ
  total : ℤ
  message : String
  nextStep : String
deriving DecidableEq

/-- A `quests` row. -/
structure Quest where
  id : String
  vip_id : String
  agent_id : Option String
  title : String
  category : String
  quest_order : ℕ
  is_locked : Bool
  status : String
  ai_questions : Option Checklist
  user_answers : Option (List ℤ)
  checked_count : ℕ
  ai_evaluation : Option Evaluation
  completed_at : Option ℕ
deriving DecidableEq

/-- A `health_index` row. -/
structure HealthIndex where
  id : String
  vip_id : String
  agent_id : Option String
  asset_stability : ℤ
  time_independence : ℤ
  physical_condition : ℤ
  emotional_balance : ℤ
  network_power : ℤ
  system_leverage : ℤ
  overall_score : ℤ
  created_at : ℕ
deriving DecidableEq

/-- A `notifications` row. -/
structure Notification where
  id : String
  title : String
  content : String
  target : String
  created_by : Option String
deriving DecidableEq

/-- The relational store visible to the progression engine. -/
structure DB where
  users : List User
  quests : List Quest
  health : List HealthIndex
  notifications : List Notification
deriving DecidableEq

/-- Python exceptions that the engine can raise and never catches. -/
inductive PyError where
  | indexError
  | attributeError
deriving DecidableEq

/-- An operation outcome surfaced to the HTTP layer: either a deliberate
`HTTPException(status, detail)` or an uncaught Python exception
(surfaced as a 500).  An error raised before `db.commit()` leaves the
store untouched, which the embedding renders by the error constructors
carrying no successor state. -/
inductive ApiError where
  | http (status : ℕ) (detail : String)
  | py (e : PyError)
deriving DecidableEq

deriving instance DecidableEq for Except

/-- Replace the first element satisfying `p` (the row object returned by
`.first()`, mutated in place then committed). -/
def updateFirst (p : α → Bool) (f : α → α) : List α → List α
  | [] => []
  | x :: xs => if p x then f x :: xs else x :: updateFirst p f xs

/-- `db.query(User).filter(User.id == uid).first()`. -/
def findUser (db : DB) (uid : String) : Option User :=
  db.users.find? (fun u => u.id == uid)

/-- `db.query(Quest).filter(Quest.id == qid).first()`. -/
def findQuest (db : DB) (qid : String) : Option Quest :=
  db.quests.find? (fun q => q.id == qid)

/-- `db.query(HealthIndex).filter(vip_id == v).order_by(created_at.desc()).first()`:
the row with the greatest `created_at` among the client's rows (ties —
unspecified at the database — resolved to the earliest stored row). -/
def latestHealth (db : DB) (vip_id : String) : Option HealthIndex :=
  (db.health.filter (fun h => h.vip_id == vip_id)).foldl
    (fun acc h =>
      match acc with
      | none => some h
      | some best => if best.created_at < h.created_at then some h else acc)
    none

/-! ## Quest initialization (`initialize_vip_quests`, `app/api/quest.py`) -/

/-- The `metrics` list of `initialize_vip_quests`: the six quest
categories in declaration order, each paired with the matching axis of
the latest health index (50 when the client has none). -/
def questMetrics (lh : Option HealthIndex) : List (String × ℤ) :=
  [(("future_safety_net"), match lh with | some h => h.asset_stability | none => 50),
   (("emotional_anchor"), match lh with | some h => h.emotional_balance | none => 50),
   (("time_mastery"), match lh with | some h => h.time_independence | none => 50),
   (("body_signals"), match lh with | some h => h.physical_condition | none => 50),
   (("relationship_power"), match lh with | some h => h.network_power | none => 50),
   (("system_leverage"), match lh with | some h => h.system_leverage | none => 50)]

/-- The `titles` lookup of `initialize_vip_quests` with its
`.get(category, category)` fallback. -/
def questTitle (category : String) : String :=
  if category = ("future_safety_net") then "자산 안정성 점검"
  else if category = ("emotional_anchor") then "정서 균형 점검"
  else if category = ("time_mastery") then "시간 독립성 점검"
  else if category = ("body_signals") then "신체 컨디션 점검"
  else if category = ("relationship_power") then "네트워크 파워 점검"
  else if category = ("system_leverage") then "시스템 레버리지 점검"
  else category

/-- Comparison by score, the key of `sorted(metrics, key=lambda x: x[1])`. -/
def scoreLe (p q : String × ℤ) : Prop := p.2 ≤ q.2

instance : DecidableRel scoreLe := fun p q => inferInstanceAs (Decidable (p.2 ≤ q.2))

instance : IsTotal (String × ℤ) scoreLe := ⟨fun p q => le_total p.2 q.2⟩

instance : IsTrans (String × ℤ) scoreLe := ⟨fun _ _ _ h1 h2 => le_trans h1 h2⟩

/-- Python `sorted(metrics, key=lambda x: x[1])`: the stable ascending
sort by score.  `List.insertionSort` with the non-strict key comparison
places each element (processed right to left) before the first
equal-or-greater one, which is exactly the stable ascending sort; its
agreement with the specification's tie-break-by-declaration-order sort is
proved below (`insertionSort_key_eq_lex`). -/
def sortedMetrics (metrics : List (String × ℤ)) : List (String × ℤ) :=
  List.insertionSort scoreLe metrics

/-- The quest-creation loop of `initialize_vip_quests`: one `Quest` per
sorted metric, order index `i + 1`, only the first unlocked, status
pending.  `freshId` stands for `uuid.uuid4()` per loop index. -/
def buildQuests (freshId : ℕ → String) (vip_id : String) (agent_id : Option String)
    (metrics : List (String × ℤ)) : List Quest :=
  (sortedMetrics metrics).enum.map (fun p =>
    { id := freshId p.1, vip_id := vip_id, agent_id := agent_id,
      title := questTitle p.2.1, category := p.2.1,
      quest_order := p.1 + 1, is_locked := p.1 != 0, status := "pending",
      ai_questions := none, user_answers := none, checked_count := 0,
      ai_evaluation := none, completed_at := none })

/-- Result payload of `initialize_vip_quests`. -/
inductive InitResult where
  | alreadyInitialized
  | success (count : ℕ)
deriving DecidableEq

/-- `initialize_vip_quests` (`app/api/quest.py` lines 23-72): 404 when
the client does not exist; a no-op "already initialized" answer when any
quest row exists for the client; otherwise six quests are created from
the latest health index (all axes defaulting to 50), ordered ascending
by score. -/
def initialize_vip_quests (freshId : ℕ → String) (vip_id : String) (db : DB) :
    Except ApiError (DB × InitResult) :=
  match findUser db vip_id with
  | none => .error (.http 404 ("VIP not found"))
  | some vip =>
    if (db.quests.find? (fun q => q.vip_id == vip_id)).isSome then
      .ok (db, .alreadyInitialized)
    else
      let new_quests := buildQuests freshId vip_id vip.created_by
        (questMetrics (latestHealth db vip_id))
      .ok ({ db with quests := db.quests ++ new_quests }, .success new_quests.length)

/-! ## Checklist generation (`generate_quest_questions`, `app/api/quest.py`) -/

/-- The `category_to_field` lookup with its `.get(category, category)`
fallback. -/
def category_to_field (category : String) : String :=
  if category = ("future_safety_net") then "asset_stability"
  else if category = ("emotional_anchor") then "emotional_balance"
  else if category = ("time_mastery") then "time_independence"
  else if category = ("body_signals") then "physical_condition"
  else if category = ("relationship_power") then "network_power"
  else if category = ("system_leverage") then "system_leverage"
  else category

/-- `getattr(latest_health, field_name)` guarded by `hasattr`, restricted
to the integer health-axis columns (the six quest categories only ever
reach these; for any other string `hasattr` makes the caller fall back to
50). -/
def healthField? (h : HealthIndex) (field : String) : Option ℤ :=
  if field = ("asset_stability") then some h.asset_stability
  else if field = ("time_independence") then some h.time_independence
  else if field = ("physical_condition") then some h.physical_condition
  else if field = ("emotional_balance") then some h.emotional_balance
  else if field = ("network_power") then some h.network_power
  else if field = ("system_leverage") then some h.system_leverage
  else if field = ("overall_score") then some h.overall_score
  else none

/-- The checklist oracle: `QuestAgent.generate_questions(vip_name,
category, score)`, an opaque text-to-JSON call. -/
abbrev GenOracle := String → String → ℤ → Checklist

/-- `generate_quest_questions` (`app/api/quest.py` lines 74-103): 404
when the quest does not exist, 403 `Quest is locked` when `is_locked`,
otherwise the oracle's checklist is stored into `ai_questions` and
returned.  `vip.name` on a missing client raises `AttributeError` inside
the call's argument list. -/
def generate_quest_questions (gen : GenOracle) (quest_id : String) (db : DB) :
    Except ApiError (DB × Checklist) :=
  match findQuest db quest_id with
  | none => .error (.http 404 ("Quest not found"))
  | some quest =>
    if quest.is_locked then .error (.http 403 ("Quest is locked"))
    else
      match findUser db quest.vip_id with
      | none => .error (.py .attributeError)
      | some vip =>
        let score :=
          match latestHealth db quest.vip_id with
          | some h => (healthField? h (category_to_field quest.category)).getD 50
          | none => 50
        let ai := gen vip.name quest.category score
        let storeAi : Quest → Quest := fun q => { q with ai_questions := some ai }
        let quests1 := updateFirst (fun q => q.id == quest_id) storeAi db.quests
        .ok ({ db with quests := quests1 }, ai)

/-! ## Evaluation (`QuestAgent.evaluate_answers` and `evaluate_quest`) -/

/-- Python list indexing `l[i]`: negative indices count from the end,
out-of-range raises `IndexError` (here `none`). -/
def pyGet? (l : List α) (i : ℤ) : Option α :=
  let j := if i < 0 then i + (l.length : ℤ) else i
  if 0 ≤ j ∧ j < (l.length : ℤ) then l.get? j.toNat else none

/-- The list comprehension `[questions[i] for i in checked_indices]`:
collect every element, or raise at the first failing index. -/
def mapOrFail (f : α → Option β) : List α → Option (List β)
  | [] => some []
  | a :: l =>
    match f a, mapOrFail f l with
    | some b, some bs => some (b :: bs)
    | _, _ => none

/-- The evaluation oracle: the model call of
`QuestAgent.evaluate_answers`, fed the client name, category, checked
items, unchecked items, checked count and total count that the prompt is
built from. -/
abbrev EvalOracle := String → String → List String → List String → ℕ → ℕ → Evaluation

/-- `QuestAgent.evaluate_answers` (`app/agents/quest_agent.py` lines
66-114): split the checklist into checked/unchecked by index membership
— `questions[i]` raising `IndexError` on an out-of-range index before
the oracle is consulted — then return the oracle's JSON verdict. -/
def evaluate_answers (oracle : EvalOracle) (vip_name category : String)
    (questions : List String) (checked_indices : List ℤ) :
    Except PyError Evaluation :=
  match mapOrFail (pyGet? questions) checked_indices with
  | none => .error .indexError
  | some checked_items =>
    let unchecked_items :=
      (List.filter (fun i : ℕ => !(checked_indices.contains (i : ℤ)))
        (List.range questions.length)).filterMap (fun i => questions.get? i)
    .ok (oracle vip_name category checked_items unchecked_items
      checked_indices.length questions.length)

/-- `evaluate_quest` (`app/api/quest.py` lines 105-150): 404 when the
quest is missing, 400 `Questions not generated yet` when no checklist is
stored (note: no `is_locked` check), then the oracle verdict is stored
into `user_answers` / `checked_count` / `ai_evaluation`; when
`evaluation["passed"]` the quest is completed, the first quest of the
same client at the next order index (if any) is unlocked, and a
completion notification is inserted.  `notifId` stands for
`uuid.uuid4()` and `now` for `datetime.now()`. -/
def evaluate_quest (oracle : EvalOracle) (notifId : String) (now : ℕ)
    (quest_id : String) (checkedIndexes : List ℤ) (db : DB) :
    Except ApiError (DB × Evaluation) :=
  match findQuest db quest_id with
  | none => .error (.http 404 ("Quest not found"))
  | some quest =>
    match quest.ai_questions with
    | none => .error (.http 400 ("Questions not generated yet"))
    | some aiq =>
      match findUser db quest.vip_id with
      | none => .error (.py .attributeError)
      | some vip =>
        match evaluate_answers oracle vip.name quest.category aiq.checklist checkedIndexes with
        | .error e => .error (.py e)
        | .ok evaluation =>
          let quest1 := { quest with
            user_answers := some checkedIndexes,
            checked_count := checkedIndexes.length,
            ai_evaluation := some evaluation }
          if evaluation.passed then
            let quest2 := { quest1 with status := "completed", completed_at := some now }
            let quests1 := updateFirst (fun q => q.id == quest_id) (fun _ => quest2) db.quests
            let nextPred : Quest → Bool :=
              fun q => q.vip_id == quest.vip_id && q.quest_order == quest.quest_order + 1
            let unlock : Quest → Quest := fun q => { q with is_locked := false }
            let quests2 := updateFirst nextPred unlock quests1
            let noti : Notification :=
              { id := notifId, title := "🎉 \x27" ++ quest.title ++ "\x27 미션 완료!",
                content := evaluation.message, target := "vip", created_by := quest.agent_id }
            .ok ({ db with
                   quests := quests2,
                   notifications := db.notifications ++ [noti] }, evaluation)
          else
            let quests1 := updateFirst (fun q => q.id == quest_id) (fun _ => quest1) db.quests
            .ok ({ db with quests := quests1 }, evaluation)

/-! ## Manual completion (`complete_quest`, `app/api/vip.py`) -/

/-- `complete_quest` (`app/api/vip.py` lines 98-110): 404 when missing,
otherwise set `status = "completed"` and the completion timestamp and
commit.  No lock is consulted and no neighbouring quest is touched. -/
def complete_quest (now : ℕ) (quest_id : String) (db : DB) :
    Except ApiError (DB × String) :=
  match findQuest db quest_id with
  | none => .error (.http 404 ("Quest not found"))
  | some _quest =>
    let done : Quest → Quest := fun q => { q with status := "completed", completed_at := some now }
    .ok ({ db with quests := updateFirst (fun q => q.id == quest_id) done db.quests },
         "Quest completed!")

/-! ## Diagnosis completion (`complete_diagnosis`, `app/api/vip.py`) -/

/-- The process-wide `_diagnosis_sessions` dictionary: client id to that
client's `question_id → answer` map (`.get(vip_id, {})` renders a missing
session as the empty map). -/
abbrev Sessions := String → String → Option PyVal

/-- `_diagnosis_sessions.pop(vip_id, None)`. -/
def popSession (sessions : Sessions) (vip_id : String) : Sessions :=
  fun v => if v = vip_id then (fun _ => none) else sessions v

/-- The response payload of `complete_diagnosis`. -/
structure DiagResponse where
  diagnosis_id : String
  scores : DiagScores
  message : String
deriving DecidableEq

/-- The state after `complete_diagnosis`: the relational store, the
session store, and the returned payload. -/
structure DiagOutcome where
  db : DB
  sessions : Sessions
  resp : DiagResponse

/-- The local-DB fallback write of `complete_diagnosis`: update the
client's existing `health_index` row, or insert a fresh one. -/
def healthFallbackWrite (newId : String) (now : ℕ) (vip_id : String)
    (s : DiagScores) (db : DB) : DB :=
  let setScores : HealthIndex → HealthIndex := fun h =>
    { h with
      asset_stability := s.asset, time_independence := s.time,
      physical_condition := s.body, emotional_balance := s.emotion,
      network_power := s.network, system_leverage := s.system,
      overall_score := s.overall }
  let freshRow : HealthIndex :=
    { id := newId, vip_id := vip_id, agent_id := none,
      asset_stability := s.asset, time_independence := s.time,
      physical_condition := s.body, emotional_balance := s.emotion,
      network_power := s.network, system_leverage := s.system,
      overall_score := s.overall, created_at := now }
  match db.health.find? (fun h => h.vip_id == vip_id) with
  | some _ =>
    { db with health := updateFirst (fun h => h.vip_id == vip_id) setScores db.health }
  | none =>
    { db with health := db.health ++ [freshRow] }

/-- `complete_diagnosis` (`app/api/vip.py` lines 279-413): 404 when the
client does not exist; aggregate the session answers; try the Supabase
upsert (`primaryOk` — an external store, so the local `DB` is untouched
on success); on failure try the local write (`fallbackOk`; a failing
commit is rolled back); both failures are merely logged.  The session is
discarded and the success payload returned in every non-404 path. -/
def complete_diagnosis (primaryOk fallbackOk : Bool) (newId : String) (now : ℕ)
    (vip_id : String) (sessions : Sessions) (db : DB) :
    Except ApiError DiagOutcome :=
  match findUser db vip_id with
  | none => .error (.http 404 ("VIP not found: " ++ vip_id))
  | some _vip =>
    let s := aggregateDiagnosis (sessions vip_id)
    let db1 :=
      if primaryOk then db
      else if fallbackOk then healthFallbackWrite newId now vip_id s db
      else db
    .ok { db := db1, sessions := popSession sessions vip_id,
          resp := { diagnosis_id := vip_id, scores := s, message := "진단이 완료되었습니다." } }

/-! ## List-level lemmas -/

theorem updateFirst_of_forall_not {p : α → Bool} {f : α → α} :
    ∀ {l : List α}, (∀ a ∈ l, ¬ p a = true) → updateFirst p f l = l
  | [], _ => rfl
  | x :: xs, h => by
    have hx : ¬ p x = true := h x (List.mem_cons_self x xs)
    simp only [updateFirst, if_neg hx]
    rw [updateFirst_of_forall_not (fun a ha => h a (List.mem_cons_of_mem x ha))]

theorem updateFirst_eq_map {p : α → Bool} {f : α → α} :
    ∀ {l : List α}, l.countP p ≤ 1 →
      updateFirst p f l = l.map (fun a => if p a then f a else a) := by
  intro l
  induction l with
  | nil => intro h; rfl
  | cons x xs ih =>
    intro h
    have hcnt := List.countP_cons p x xs
    by_cases hx : p x = true
    · have hzero : xs.countP p = 0 := by
        simp only [hx, if_pos] at hcnt
        omega
      have hnone : ∀ a ∈ xs, ¬ p a = true := by
        intro a ha hpa
        have hpos : 0 < xs.countP p := List.countP_pos_iff.mpr ⟨a, ha, hpa⟩
        omega
      simp only [updateFirst, if_pos hx, List.map_cons, if_pos hx]
      rw [List.map_congr_left (fun a ha => if_neg (hnone a ha))]
      simp
    · have hle : xs.countP p ≤ 1 := by
        simp only [hx, if_neg] at hcnt
        omega
      simp only [updateFirst, if_neg hx, List.map_cons, if_neg hx]
      exact congrArg (x :: ·) (ih hle)

theorem map_updateFirst (g : α → β) {p : α → Bool} {f : α → α}
    (hpres : ∀ a, g (f a) = g a) :
    ∀ (l : List α), (updateFirst p f l).map g = l.map g
  | [] => rfl
  | x :: xs => by
    by_cases hx : p x = true
    · simp only [updateFirst, if_pos hx, List.map_cons, hpres]
    · simp only [updateFirst, if_neg hx, List.map_cons]
      rw [map_updateFirst g hpres xs]

theorem mapOrFail_eq_none {f : α → Option β} {x : α} :
    ∀ {l : List α}, x ∈ l → f x = none → mapOrFail f l = none := by
  intro l
  induction l with
  | nil => intro h; cases h
  | cons a t ih =>
    intro hmem hfx
    rcases List.mem_cons.mp hmem with h | h
    · subst h
      simp only [mapOrFail, hfx]
    · simp only [mapOrFail, ih h hfx]
      cases f a <;> rfl

/-! ## Stability of the initialization sort

Python's `sorted` is the stable ascending sort.  The specification's
description — "stable-sort ascending by score, ties broken by the fixed
category declaration order" — is the sort of the declaration-indexed
metrics by the lexicographic (score, declaration index) order, which is
antisymmetric and hence has a unique sorted permutation.  The two agree:
`insertionSort` by the non-strict key order inserts each element
(processed right to left) before the first equal-keyed one, and on a
list whose tags strictly increase this coincides with the lexicographic
insertion. -/

/-- Key comparison lifted to declaration-indexed metrics. -/
def tagScoreLe (a b : ℕ × String × ℤ) : Prop := a.2.2 ≤ b.2.2

instance : DecidableRel tagScoreLe := fun a b => inferInstanceAs (Decidable (a.2.2 ≤ b.2.2))

/-- The specification's order: ascending score, ties by declaration
index. -/
def specLexLe (a b : ℕ × String × ℤ) : Prop :=
  a.2.2 < b.2.2 ∨ (a.2.2 = b.2.2 ∧ a.1 ≤ b.1)

instance : DecidableRel specLexLe := fun a b =>
  inferInstanceAs (Decidable (a.2.2 < b.2.2 ∨ (a.2.2 = b.2.2 ∧ a.1 ≤ b.1)))

theorem orderedInsert_tag_eq_lex (a : ℕ × String × ℤ) :
    ∀ (s : List (ℕ × String × ℤ)), (∀ b ∈ s, a.1 < b.1) →
      List.orderedInsert tagScoreLe a s = List.orderedInsert specLexLe a s
  | [], _ => rfl
  | b :: t, h => by
    have hb : a.1 < b.1 := h b (List.mem_cons_self b t)
    have hiff : tagScoreLe a b ↔ specLexLe a b := by
      unfold tagScoreLe specLexLe
      constructor
      · intro hle
        rcases lt_or_eq_of_le hle with h1 | h1
        · exact Or.inl h1
        · exact Or.inr ⟨h1, le_of_lt hb⟩
      · intro h1
        rcases h1 with h1 | ⟨h1, _⟩
        · exact le_of_lt h1
        · exact le_of_eq h1
    by_cases hc : tagScoreLe a b
    · simp only [List.orderedInsert, if_pos hc, if_pos (hiff.mp hc)]
    · have hc2 : ¬ specLexLe a b := fun hx => hc (hiff.mpr hx)
      simp only [List.orderedInsert, if_neg hc, if_neg hc2]
      rw [orderedInsert_tag_eq_lex a t (fun c hc => h c (List.mem_cons_of_mem b hc))]

theorem insertionSort_tag_eq_lex :
    ∀ (l : List (ℕ × String × ℤ)), List.Pairwise (fun a b => a.1 < b.1) l →
      List.insertionSort tagScoreLe l = List.insertionSort specLexLe l
  | [], _ => rfl
  | a :: t, h => by
    simp only [List.insertionSort]
    rw [insertionSort_tag_eq_lex t (List.Pairwise.of_cons h)]
    apply orderedInsert_tag_eq_lex
    intro b hb
    exact (List.pairwise_cons.mp h).1 b ((List.mem_insertionSort specLexLe).mp hb)

theorem enumFrom_pairwise_fst_lt :
    ∀ (n : ℕ) (l : List α), List.Pairwise (fun a b : ℕ × α => a.1 < b.1) (l.enumFrom n)
  | _, [] => List.Pairwise.nil
  | n, x :: t => by
    simp only [List.enumFrom]
    refine List.pairwise_cons.mpr ⟨?_, enumFrom_pairwise_fst_lt (n + 1) t⟩
    intro b hb
    obtain ⟨i, y⟩ := b
    have : n + 1 ≤ i := (List.mk_mem_enumFrom_iff_le_and_getElem?_sub.mp hb).1
    omega

/-- The sort the claim describes, as its own definition: declaration-
indexed metrics sorted by the lexicographic (score, declaration index)
order, indices dropped afterwards. -/
def specStableSort (metrics : List (String × ℤ)) : List (String × ℤ) :=
  (List.insertionSort specLexLe metrics.enum).map Prod.snd

theorem sortedMetrics_eq_specStableSort (metrics : List (String × ℤ)) :
    sortedMetrics metrics = specStableSort metrics := by
  unfold specStableSort sortedMetrics
  rw [← insertionSort_tag_eq_lex metrics.enum (enumFrom_pairwise_fst_lt 0 metrics)]
  rw [List.map_insertionSort (r := tagScoreLe) (s := scoreLe) Prod.snd metrics.enum
    (fun a _ b _ => Iff.rfl)]
  rw [List.enum_map_snd]

/-! ## Rounding and averaging lemmas -/

theorem pyRound_intCast (n : ℤ) : pyRound (n : ℚ) = n := by
  unfold pyRound
  simp [Int.fract_intCast]

theorem avgScore_of_const_50 {f : Question → ℚ} :
    ∀ {qs : List Question}, (∀ q ∈ qs, f q = 50) → qs ≠ [] →
      avgScore (qs.map f) = 50 := by
  intro qs hall hne
  have hmap : qs.map f = qs.map (fun _ => (50 : ℚ)) := List.map_congr_left hall
  have hsum : (qs.map f).sum = 50 * qs.length := by
    rw [hmap, List.map_const', List.sum_replicate, nsmul_eq_mul]
    ring
  have hlen : (qs.map f).length = qs.length := List.length_map qs f
  have hlenne : (qs.length : ℚ) ≠ 0 :=
    Nat.cast_ne_zero.mpr (Nat.pos_iff_ne_zero.mp (List.length_pos.mpr hne))
  have hie : ¬ ((qs.map f).isEmpty = true) := by
    simp [List.isEmpty_iff, hne]
  unfold avgScore
  rw [if_neg hie, hsum, hlen, mul_div_assoc, div_self hlenne, mul_one]
  simpa using pyRound_intCast 50

/-! ## Claim C7 — single-choice scoring -/

/-- C7: for every single-choice (radio) question and answer, the score is
obtained from the zero-based index of the answered label in the declared
choice list (exact string match, first occurrence) through the fixed map
0↦15, 1↦40, 2↦70, 3↦100; an index beyond the map (possible only for a
question with more than 4 choices), an answer not found in the list, and
a missing answer all yield 50. -/
theorem c7_single_choice_scoring (answers : String → Option PyVal) (q : Question)
    (s : String) (hq : q.type = ("radio")) :
    (∀ i : ℕ, answers q.id = some (.str s) →
        q.options.findIdx? (fun o => o == s) = some i → calc_score answers q = SCORE_MAP i) ∧
    (SCORE_MAP 0 = 15 ∧ SCORE_MAP 1 = 40 ∧ SCORE_MAP 2 = 70 ∧ SCORE_MAP 3 = 100) ∧
    (∀ i : ℕ, 4 ≤ i → SCORE_MAP i = 50) ∧
    (answers q.id = some (.str s) → q.options.findIdx? (fun o => o == s) = none →
        calc_score answers q = 50) ∧
    (answers q.id = none → calc_score answers q = 50) := by
  refine ⟨?_, ⟨rfl, rfl, rfl, rfl⟩, ?_, ?_, ?_⟩
  · intro i ha hidx
    have hne : q.options ≠ [] := by
      intro h0
      rw [h0] at hidx
      simp at hidx
    have hidx2 : q.options.findIdx? (fun o => o == pyStr (.str s)) = some i := hidx
    simp only [calc_score, ha]
    rw [if_pos ⟨hq, hne⟩, hidx2]
  · intro i hi
    unfold SCORE_MAP
    rw [if_neg (by omega), if_neg (by omega), if_neg (by omega), if_neg (by omega)]
  · intro ha hidx
    have hidx2 : q.options.findIdx? (fun o => o == pyStr (.str s)) = none := hidx
    simp only [calc_score, ha]
    by_cases hne : q.options = []
    · have h1 : ¬ (q.type = ("radio") ∧ q.options ≠ []) := fun hc => hc.2 hne
      have h2 : ¬ (q.type = ("slider")) := by rw [hq]; simp
      have h3 : ¬ (q.type = ("checkbox") ∧ q.options ≠ []) := fun hc => hc.2 hne
      rw [if_neg h1, if_neg h2, if_neg h3]
    · rw [if_pos ⟨hq, hne⟩, hidx2]
  · intro ha
    simp only [calc_score, ha]

/-- A radio question with four generic options, for the C7 witness. -/
def c7q : Question :=
  { id := "q", question := "", category := "c",
    type := "radio", options := ["a", "b", "c", "d"], order := 1 }

/-- An answer map picking the third option of `c7q`. -/
def c7answers : String → Option PyVal :=
  fun qid => if qid = ("q") then some (.str ("c")) else none

/-- Witness for C7: the third option scores 70, index 4 defaults to 50,
and a missing answer scores 50. -/
theorem c7_single_choice_scoring_witness :
    calc_score c7answers c7q = 70 ∧ SCORE_MAP 4 = 50 ∧
      calc_score (fun _ => none) c7q = 50 := by
  refine ⟨?_, ?_, ?_⟩
  · have h := (c7_single_choice_scoring c7answers c7q ("c") rfl).1 2
    rw [h (by simp [c7answers, c7q]) (by simp [c7q, List.findIdx?])]
    rfl
  · exact (c7_single_choice_scoring c7answers c7q ("c") rfl).2.2.1 4 (by omega)
  · exact (c7_single_choice_scoring (fun _ => none) c7q ("c") rfl).2.2.2.2 rfl

/-! ## Claim C8 — multi-select scoring -/

/-- C8: for every multi-select (checkbox) answer: the sentinel "none"
option among the selections scores 90 regardless of co-selections;
otherwise with `k` non-sentinel selections the score is 50 for `k = 0`
and `max 10 (80 − 20·k)` for `k ≥ 1`; a missing or non-list answer
scores 50. -/
theorem c8_multi_select_scoring (answers : String → Option PyVal) (q : Question)
    (hq : q.type = ("checkbox")) (hopts : q.options ≠ []) :
    (∀ l : List String, answers q.id = some (.list l) → noneOption ∈ l →
        calc_score answers q = 90) ∧
    (∀ l : List String, answers q.id = some (.list l) → noneOption ∉ l →
        (l.filter (fun s => s ≠ noneOption)).length = 0 → calc_score answers q = 50) ∧
    (∀ (l : List String) (k : ℕ), answers q.id = some (.list l) → noneOption ∉ l →
        (l.filter (fun s => s ≠ noneOption)).length = k → 1 ≤ k →
        calc_score answers q = max 10 (80 - 20 * (k : ℚ))) ∧
    (answers q.id = none → calc_score answers q = 50) ∧
    (∀ a : PyVal, answers q.id = some a → (∀ l : List String, a ≠ .list l) →
        calc_score answers q = 50) := by
  have hr : ¬ (q.type = ("radio") ∧ q.options ≠ []) := by
    rw [hq]; simp
  have hs : ¬ (q.type = ("slider")) := by rw [hq]; simp
  refine ⟨?_, ?_, ?_, ?_, ?_⟩
  · intro l ha hmem
    simp only [calc_score, ha]
    rw [if_neg hr, if_neg hs, if_pos ⟨hq, hopts⟩]
    simp only [if_pos hmem]
  · intro l ha hmem hk
    simp only [calc_score, ha]
    rw [if_neg hr, if_neg hs, if_pos ⟨hq, hopts⟩]
    simp only [if_neg hmem, if_pos hk]
  · intro l k ha hmem hk hk1
    simp only [calc_score, ha]
    rw [if_neg hr, if_neg hs, if_pos ⟨hq, hopts⟩]
    simp only [if_neg hmem]
    rw [hk, if_neg (by omega)]
  · intro ha
    simp only [calc_score, ha]
  · intro a ha hne
    simp only [calc_score, ha]
    rw [if_neg hr, if_neg hs, if_pos ⟨hq, hopts⟩]

/-- The battery's checkbox question, for the C8 witness. -/
def c8q : Question :=
  { id := "emotion_4", question := "현재 가장 큰 정서적 걱정거리는? (복수 선택)", category := "emotion",
    type := "checkbox", options := ["수입/재정 불안", "인간관계", "건강", "미래에 대한 불확실성", "없음"],
    order := 13 }

/-- An answer map selecting the sentinel plus one concern. -/
def c8answersNone : String → Option PyVal :=
  fun qid => if qid = ("emotion_4") then some (.list [("없음"), ("건강")]) else none

/-- An answer map selecting two concerns. -/
def c8answersTwo : String → Option PyVal :=
  fun qid => if qid = ("emotion_4") then some (.list [("건강"), ("인간관계")]) else none

/-- Witness for C8: sentinel co-selected scores 90, two concerns score
40, a non-list answer scores 50. -/
theorem c8_multi_select_scoring_witness :
    calc_score c8answersNone c8q = 90 ∧ calc_score c8answersTwo c8q = 40 ∧
      calc_score (fun _ => some (.str ("x"))) c8q = 50 := by
  refine ⟨?_, ?_, ?_⟩
  · exact (c8_multi_select_scoring c8answersNone c8q rfl (by simp [c8q])).1
      [("없음"), ("건강")] (by simp [c8answersNone, c8q]) (by simp [noneOption])
  · have h := (c8_multi_select_scoring c8answersTwo c8q rfl (by simp [c8q])).2.2.1
      [("건강"), ("인간관계")] 2 (by simp [c8answersTwo, c8q])
      (by simp [noneOption]) (by simp [noneOption]) (by omega)
    exact h.trans (by norm_num)
  · exact (c8_multi_select_scoring (fun _ => some (.str ("x"))) c8q rfl (by simp [c8q])).2.2.2.2
      (.str ("x")) rfl (by intro l h; cases h)

/-! ## Claim C9 — slider scoring -/

/-- C9: for every slider answer `v` the score is `clamp(v·10, 0, 100)`,
and a non-numeric or missing slider answer yields 50. -/
theorem c9_slider_scoring (answers : String → Option PyVal) (q : Question)
    (hq : q.type = ("slider")) :
    (∀ v : ℚ, answers q.id = some (.num v) →
        calc_score answers q = min 100 (max 0 (v * 10))) ∧
    (∀ a : PyVal, answers q.id = some a → pyFloat? a = none → calc_score answers q = 50) ∧
    (answers q.id = none → calc_score answers q = 50) := by
  have hr : ¬ (q.type = ("radio") ∧ q.options ≠ []) := by
    rw [hq]; simp
  refine ⟨?_, ?_, ?_⟩
  · intro v ha
    simp only [calc_score, ha]
    rw [if_neg hr, if_pos hq]
    rfl
  · intro a ha hnum
    simp only [calc_score, ha]
    rw [if_neg hr, if_pos hq, hnum]
  · intro ha
    simp only [calc_score, ha]

/-- The battery's first slider question, for the C9 witness. -/
def c9q : Question :=
  { id := "body_3", question := "현재 에너지 수준을 1~10으로 평가하면?", category := "body",
    type := "slider", options := [], order := 9 }

/-- A one-question slider answer map. -/
def c9answers (a : PyVal) : String → Option PyVal :=
  fun qid => if qid = ("body_3") then some a else none

/-- Witness for C9: v = 0 ↦ 0, v = 10 ↦ 100, v = −5 ↦ 0, v = 15 ↦ 100,
a non-numeric answer ↦ 50, a missing answer ↦ 50. -/
theorem c9_slider_scoring_witness :
    calc_score (c9answers (.num 0)) c9q = 0 ∧
    calc_score (c9answers (.num 10)) c9q = 100 ∧
    calc_score (c9answers (.num (-5))) c9q = 0 ∧
    calc_score (c9answers (.num 15)) c9q = 100 ∧
    calc_score (c9answers (.str ("abc"))) c9q = 50 ∧
    calc_score (fun _ => none) c9q = 50 := by
  have h0 := (c9_slider_scoring (c9answers (.num 0)) c9q rfl).1 0 (by simp [c9answers, c9q])
  have h10 := (c9_slider_scoring (c9answers (.num 10)) c9q rfl).1 10 (by simp [c9answers, c9q])
  have hm5 := (c9_slider_scoring (c9answers (.num (-5))) c9q rfl).1 (-5) (by simp [c9answers, c9q])
  have h15 := (c9_slider_scoring (c9answers (.num 15)) c9q rfl).1 15 (by simp [c9answers, c9q])
  have habc := (c9_slider_scoring (c9answers (.str ("abc"))) c9q rfl).2.1 (.str ("abc"))
    (by simp [c9answers, c9q]) (by simp [pyFloat?, parseDecimalChars?])
  have hmiss := (c9_slider_scoring (fun _ => none) c9q rfl).2.2 rfl
  refine ⟨?_, ?_, ?_, ?_, habc, hmiss⟩
  · rw [h0]; norm_num
  · rw [h10]; norm_num
  · rw [hm5]; norm_num
  · rw [h15]; norm_num

/-! ## Claim C6 — diagnosis aggregation -/

/-- C6: for every answer map, each of the six category scores is the
arithmetic mean of that category's per-question scores rounded to the
nearest integer (`pyRound`, the source's `round`), a category with no
contributing questions defaults to 50 (`avgScore [] = 50`), the overall
score is the rounded mean of the six category scores, and when every
question of the battery scores exactly 50 all six category scores and
the overall score are 50. -/
theorem c6_aggregation (answers : String → Option PyVal) :
    ((aggregateDiagnosis answers).asset =
        pyRound ((categoryScores answers ("asset")).sum /
          ((categoryScores answers ("asset")).length : ℚ)) ∧
      (aggregateDiagnosis answers).time =
        pyRound ((categoryScores answers ("time")).sum /
          ((categoryScores answers ("time")).length : ℚ)) ∧
      (aggregateDiagnosis answers).body =
        pyRound ((categoryScores answers ("body")).sum /
          ((categoryScores answers ("body")).length : ℚ)) ∧
      (aggregateDiagnosis answers).emotion =
        pyRound ((categoryScores answers ("emotion")).sum /
          ((categoryScores answers ("emotion")).length : ℚ)) ∧
      (aggregateDiagnosis answers).network =
        pyRound ((categoryScores answers ("network")).sum /
          ((categoryScores answers ("network")).length : ℚ)) ∧
      (aggregateDiagnosis answers).system =
        pyRound ((categoryScores answers ("system")).sum /
          ((categoryScores answers ("system")).length : ℚ))) ∧
    (aggregateDiagnosis answers).overall =
      pyRound ((((aggregateDiagnosis answers).asset : ℚ) +
        ((aggregateDiagnosis answers).time : ℚ) + ((aggregateDiagnosis answers).body : ℚ) +
        ((aggregateDiagnosis answers).emotion : ℚ) + ((aggregateDiagnosis answers).network : ℚ) +
        ((aggregateDiagnosis answers).system : ℚ)) / 6) ∧
    avgScore [] = 50 ∧
    ((∀ q ∈ DIAGNOSIS_QUESTIONS, calc_score answers q = 50) →
      aggregateDiagnosis answers = ⟨50, 50, 50, 50, 50, 50, 50⟩) := by
  refine ⟨⟨rfl, rfl, rfl, rfl, rfl, rfl⟩, ?_, rfl, ?_⟩
  · have hdef : (aggregateDiagnosis answers).overall =
        avgScore [((aggregateDiagnosis answers).asset : ℚ),
          ((aggregateDiagnosis answers).time : ℚ), ((aggregateDiagnosis answers).body : ℚ),
          ((aggregateDiagnosis answers).emotion : ℚ), ((aggregateDiagnosis answers).network : ℚ),
          ((aggregateDiagnosis answers).system : ℚ)] := rfl
    rw [hdef]
    unfold avgScore
    rw [if_neg (by simp)]
    congr 1
    simp only [List.sum_cons, List.sum_nil, List.length_cons, List.length_nil]
    push_cast
    ring
  · intro hall
    have hmean : ∀ cat : String, categoryQuestions cat ≠ [] →
        avgScore (categoryScores answers cat) = 50 := by
      intro cat hne
      exact avgScore_of_const_50
        (fun q hqmem => hall q (List.mem_of_mem_filter hqmem)) hne
    have ha := hmean ("asset") (by simp [categoryQuestions, DIAGNOSIS_QUESTIONS])
    have ht := hmean ("time") (by simp [categoryQuestions, DIAGNOSIS_QUESTIONS])
    have hb := hmean ("body") (by simp [categoryQuestions, DIAGNOSIS_QUESTIONS])
    have he := hmean ("emotion") (by simp [categoryQuestions, DIAGNOSIS_QUESTIONS])
    have hn := hmean ("network") (by simp [categoryQuestions, DIAGNOSIS_QUESTIONS])
    have hs := hmean ("system") (by simp [categoryQuestions, DIAGNOSIS_QUESTIONS])
    show DiagScores.mk _ _ _ _ _ _ _ = _
    rw [ha, ht, hb, he, hn, hs]
    have hover : avgScore [((50 : ℤ) : ℚ), ((50 : ℤ) : ℚ), ((50 : ℤ) : ℚ),
        ((50 : ℤ) : ℚ), ((50 : ℤ) : ℚ), ((50 : ℤ) : ℚ)] = 50 := by
      unfold avgScore
      rw [if_neg (by simp)]
      norm_num
      simpa using pyRound_intCast 50
    rw [hover]

/-- Witness for C6: with no stored answers every question scores 50
(missing answers degrade to the neutral default), and the aggregation
yields all six category scores and the overall score equal to 50. -/
theorem c6_aggregation_witness :
    aggregateDiagnosis (fun _ => none) = ⟨50, 50, 50, 50, 50, 50, 50⟩ :=
  (c6_aggregation (fun _ => none)).2.2.2 (fun _ _ => rfl)


/-! ## Facts about the created quests -/

theorem buildQuests_length (freshId : ℕ → String) (v : String) (a : Option String)
    (metrics : List (String × ℤ)) :
    (buildQuests freshId v a metrics).length = metrics.length := by
  simp [buildQuests, sortedMetrics]

theorem buildQuests_vip_id (freshId : ℕ → String) (v : String) (a : Option String)
    (metrics : List (String × ℤ)) :
    ∀ q ∈ buildQuests freshId v a metrics, q.vip_id = v := by
  intro q hq
  simp only [buildQuests, List.mem_map] at hq
  obtain ⟨p, _, rfl⟩ := hq
  rfl

theorem buildQuests_categories (freshId : ℕ → String) (v : String) (a : Option String)
    (metrics : List (String × ℤ)) :
    (buildQuests freshId v a metrics).map (fun q => q.category) =
      (sortedMetrics metrics).map Prod.fst := by
  unfold buildQuests
  rw [List.map_map]
  conv_rhs => rw [← List.enum_map_snd (sortedMetrics metrics), List.map_map]
  exact List.map_congr_left (fun p _ => rfl)

theorem buildQuests_orders (freshId : ℕ → String) (v : String) (a : Option String)
    (metrics : List (String × ℤ)) :
    (buildQuests freshId v a metrics).map (fun q => q.quest_order) =
      (List.range (sortedMetrics metrics).length).map (fun i => i + 1) := by
  unfold buildQuests
  rw [List.map_map]
  conv_rhs => rw [← List.enum_map_fst (sortedMetrics metrics), List.map_map]
  exact List.map_congr_left (fun p _ => rfl)

theorem buildQuests_locks (freshId : ℕ → String) (v : String) (a : Option String)
    (metrics : List (String × ℤ)) :
    (buildQuests freshId v a metrics).map (fun q => q.is_locked) =
      (List.range (sortedMetrics metrics).length).map (fun i => i != 0) := by
  unfold buildQuests
  rw [List.map_map]
  conv_rhs => rw [← List.enum_map_fst (sortedMetrics metrics), List.map_map]
  exact List.map_congr_left (fun p _ => rfl)

theorem buildQuests_status (freshId : ℕ → String) (v : String) (a : Option String)
    (metrics : List (String × ℤ)) :
    ∀ q ∈ buildQuests freshId v a metrics, q.status = ("pending") := by
  intro q hq
  simp only [buildQuests, List.mem_map] at hq
  obtain ⟨p, _, rfl⟩ := hq
  rfl

/-- The store after a fresh initialization: the six created quests are
appended to the quest table. -/
def dbAfterInit (freshId : ℕ → String) (vip_id : String) (vip : User) (db : DB) : DB :=
  { db with
    quests := db.quests ++
      buildQuests freshId vip_id vip.created_by (questMetrics (latestHealth db vip_id)) }

/-! ## Claim C5 — initialization idempotence -/

/-- C5: quest initialization is idempotent.  Whenever a quest row exists
for the client, a further call creates nothing and answers with the
already-initialized signal rather than an error; and starting from a
client with no quest rows, the first call stores exactly six quests for
the client and a second call is a no-op on that state, leaving six rows
rather than twelve. -/
theorem c5_initialize_idempotent
    (freshId freshId2 : ℕ → String) (vip_id : String) (db : DB) (vip : User)
    (hu : findUser db vip_id = some vip) :
    (∀ q ∈ db.quests, q.vip_id = vip_id →
        initialize_vip_quests freshId vip_id db = .ok (db, .alreadyInitialized)) ∧
    (db.quests.find? (fun q => q.vip_id == vip_id) = none →
      initialize_vip_quests freshId vip_id db =
        .ok (dbAfterInit freshId vip_id vip db, .success 6) ∧
      ((dbAfterInit freshId vip_id vip db).quests.filter
          (fun q => q.vip_id == vip_id)).length = 6 ∧
      initialize_vip_quests freshId2 vip_id (dbAfterInit freshId vip_id vip db) =
        .ok (dbAfterInit freshId vip_id vip db, .alreadyInitialized)) := by
  constructor
  · intro q hq hv
    simp only [initialize_vip_quests, hu]
    rw [if_pos (List.find?_isSome.mpr ⟨q, hq, by simp [hv]⟩)]
  · intro hnone
    have hlen6 : (buildQuests freshId vip_id vip.created_by
        (questMetrics (latestHealth db vip_id))).length = 6 :=
      buildQuests_length freshId vip_id vip.created_by
        (questMetrics (latestHealth db vip_id))
    have hvips := buildQuests_vip_id freshId vip_id vip.created_by
      (questMetrics (latestHealth db vip_id))
    refine ⟨?_, ?_, ?_⟩
    · simp only [initialize_vip_quests, hu]
      rw [if_neg (by simp [hnone])]
      rw [hlen6]
      rfl
    · show ((db.quests ++ buildQuests freshId vip_id vip.created_by
        (questMetrics (latestHealth db vip_id))).filter (fun q => q.vip_id == vip_id)).length = 6
      rw [List.filter_append]
      rw [List.filter_eq_nil_iff.mpr (by
        intro q hq
        have := List.find?_eq_none.mp hnone q hq
        simpa using this)]
      rw [List.filter_eq_self.mpr (by
        intro q hq
        simpa using hvips q hq)]
      simpa using hlen6
    · have hne : buildQuests freshId vip_id vip.created_by
          (questMetrics (latestHealth db vip_id)) ≠ [] := by
        intro h0
        rw [h0] at hlen6
        simp at hlen6
      obtain ⟨q0, hq0⟩ := List.exists_mem_of_ne_nil _ hne
      have hu1 : findUser (dbAfterInit freshId vip_id vip db) vip_id = some vip := hu
      simp only [initialize_vip_quests, hu1]
      rw [if_pos (List.find?_isSome.mpr
        ⟨q0, show q0 ∈ (dbAfterInit freshId vip_id vip db).quests from
          List.mem_append_right _ hq0, by simp [hvips q0 hq0]⟩)]

/-- A one-client store with no quests, for the C5 witness. -/
def c5db : DB :=
  { users := [{ id := "v1", name := "kim", created_by := some ("a1") }],
    quests := [], health := [], notifications := [] }

/-- The client row of `c5db`. -/
def c5vip : User := { id := "v1", name := "kim", created_by := some ("a1") }

/-- Witness for C5: on the concrete empty store the first initialization
stores six rows for the client and the second call is a no-op answering
already-initialized. -/
theorem c5_initialize_idempotent_witness :
    ((dbAfterInit (fun i => toString i) ("v1") c5vip c5db).quests.filter
        (fun q => q.vip_id == "v1")).length = 6 ∧
    initialize_vip_quests (fun i => toString i) ("v1")
        (dbAfterInit (fun i => toString i) ("v1") c5vip c5db) =
      .ok (dbAfterInit (fun i => toString i) ("v1") c5vip c5db, .alreadyInitialized) := by
  have h := (c5_initialize_idempotent (fun i => toString i) (fun i => toString i)
    ("v1") c5db c5vip (by simp [findUser, c5db, c5vip])).2 (by simp [c5db])
  exact ⟨h.2.1, h.2.2⟩

/-! ## Claim C4 — initialization ordering and locking -/

/-- C4: for a client with no existing quests, initialization stores
exactly six quests, one per category (the created categories are a
permutation of the six declared ones); listed by creation position the
quests carry order indices 1..6; their category sequence is the
specification's stable sort of the (category, score) input — ascending
by score, ties broken by declaration order (`specStableSort`); the
order-1 quest is unlocked and carries a minimal score while the other
five are locked; and every created quest has status pending.  The
structural conjuncts quantify over an arbitrary health snapshot `lh`,
i.e. over every six-entry category→score input. -/
theorem c4_initialize_sequencing
    (freshId : ℕ → String) (vip_id : String) (db : DB) (vip : User)
    (agent_id : Option String) (lh : Option HealthIndex)
    (hu : findUser db vip_id = some vip)
    (hempty : db.quests.find? (fun q => q.vip_id == vip_id) = none) :
    initialize_vip_quests freshId vip_id db =
      .ok (dbAfterInit freshId vip_id vip db, .success 6) ∧
    (buildQuests freshId vip_id agent_id (questMetrics lh)).length = 6 ∧
    (buildQuests freshId vip_id agent_id (questMetrics lh)).map (fun q => q.category) =
      (specStableSort (questMetrics lh)).map Prod.fst ∧
    ((buildQuests freshId vip_id agent_id (questMetrics lh)).map (fun q => q.category)).Perm
      ((questMetrics lh).map Prod.fst) ∧
    (buildQuests freshId vip_id agent_id (questMetrics lh)).map (fun q => q.quest_order) =
      [1, 2, 3, 4, 5, 6] ∧
    (buildQuests freshId vip_id agent_id (questMetrics lh)).map (fun q => q.is_locked) =
      [false, true, true, true, true, true] ∧
    (∀ q ∈ buildQuests freshId vip_id agent_id (questMetrics lh), q.status = ("pending")) ∧
    (∀ hd, (sortedMetrics (questMetrics lh)).head? = some hd →
      hd ∈ questMetrics lh ∧ ∀ p ∈ questMetrics lh, hd.2 ≤ p.2) := by
  have hsortlen : (sortedMetrics (questMetrics lh)).length = 6 := by
    unfold sortedMetrics
    rw [List.length_insertionSort]
    rfl
  refine ⟨?_, ?_, ?_, ?_, ?_, ?_, buildQuests_status freshId vip_id agent_id _, ?_⟩
  · have hlen6 : (buildQuests freshId vip_id vip.created_by
        (questMetrics (latestHealth db vip_id))).length = 6 :=
      buildQuests_length freshId vip_id vip.created_by (questMetrics (latestHealth db vip_id))
    simp only [initialize_vip_quests, hu]
    rw [if_neg (by simp [hempty])]
    rw [hlen6]
    rfl
  · exact buildQuests_length freshId vip_id agent_id (questMetrics lh)
  · rw [buildQuests_categories, sortedMetrics_eq_specStableSort]
  · rw [buildQuests_categories]
    exact (List.perm_insertionSort scoreLe (questMetrics lh)).map Prod.fst
  · rw [buildQuests_orders, hsortlen]
    rfl
  · rw [buildQuests_locks, hsortlen]
    rfl
  · intro hd hhd
    have hperm : (sortedMetrics (questMetrics lh)).Perm (questMetrics lh) :=
      List.perm_insertionSort scoreLe (questMetrics lh)
    have hsorted : List.Sorted scoreLe (sortedMetrics (questMetrics lh)) :=
      List.sorted_insertionSort scoreLe (questMetrics lh)
    cases hsort : sortedMetrics (questMetrics lh) with
    | nil =>
      rw [hsort] at hhd
      simp at hhd
    | cons hd2 t =>
      rw [hsort] at hhd
      simp only [List.head?_cons, Option.some.injEq] at hhd
      rw [hsort] at hperm hsorted
      subst hhd
      constructor
      · exact hperm.subset (List.mem_cons_self hd2 t)
      · intro p hp
        have hpmem : p ∈ hd2 :: t := hperm.symm.subset hp
        rcases List.mem_cons.mp hpmem with h1 | h1
        · exact le_of_eq (congrArg Prod.snd h1.symm)
        · exact List.rel_of_sorted_cons hsorted p h1

/-- A health snapshot with pairwise distinct axis scores, for the C4
witness. -/
def c4health : HealthIndex :=
  { id := "h1", vip_id := "v1", agent_id := none,
    asset_stability := 20, time_independence := 90, physical_condition := 50,
    emotional_balance := 70, network_power := 60, system_leverage := 55,
    overall_score := 57, created_at := 1 }

/-- A one-client store holding `c4health` and no quests, for the C4
witness. -/
def c4db : DB :=
  { users := [{ id := "v1", name := "kim", created_by := some ("a1") }],
    quests := [], health := [c4health], notifications := [] }

/-- The client row of `c4db`. -/
def c4vip : User := { id := "v1", name := "kim", created_by := some ("a1") }

/-- Witness for C4: on the concrete store the call succeeds with six
created quests; for the snapshot 20/90/50/70/60/55 the created category
sequence is the ascending-score order, the order indices are 1..6, and
only the first quest is unlocked. -/
theorem c4_initialize_sequencing_witness :
    initialize_vip_quests (fun i => toString i) ("v1") c4db =
      .ok (dbAfterInit (fun i => toString i) ("v1") c4vip c4db, .success 6) ∧
    (buildQuests (fun i => toString i) ("v1") (some ("a1"))
        (questMetrics (some c4health))).map (fun q => q.category) =
      [("future_safety_net"), ("body_signals"), ("system_leverage"),
       ("relationship_power"), ("emotional_anchor"), ("time_mastery")] ∧
    (buildQuests (fun i => toString i) ("v1") (some ("a1"))
        (questMetrics (some c4health))).map (fun q => q.quest_order) = [1, 2, 3, 4, 5, 6] ∧
    (buildQuests (fun i => toString i) ("v1") (some ("a1"))
        (questMetrics (some c4health))).map (fun q => q.is_locked) =
      [false, true, true, true, true, true] := by
  have h := c4_initialize_sequencing (fun i => toString i) ("v1") c4db c4vip
    (some ("a1")) (some c4health) (by simp [findUser, c4db, c4vip]) (by simp [c4db])
  refine ⟨h.1, ?_, h.2.2.2.2.1, h.2.2.2.2.2.1⟩
  rw [h.2.2.1]
  decide

/-! ## Claim C1 — locked-quest rejection -/

/-- C1 (amended): checklist generation on a locked quest is rejected
with the 403 Locked error before any mutation; evaluation performs no
lock check — a locked quest is rejected (with the 400 not-generated
error, before any mutation) only when its checklist is absent, which is
the only state reachable for a locked quest through this API since
generation is refused while locked. -/
theorem c1_locked_rejection
    (gen : GenOracle) (oracle : EvalOracle) (notifId : String) (now : ℕ)
    (quest_id : String) (checked : List ℤ) (db : DB) (quest : Quest)
    (hfind : findQuest db quest_id = some quest)
    (hlocked : quest.is_locked = true) :
    generate_quest_questions gen quest_id db = .error (.http 403 ("Quest is locked")) ∧
    (quest.ai_questions = none →
      evaluate_quest oracle notifId now quest_id checked db =
        .error (.http 400 ("Questions not generated yet"))) := by
  constructor
  · simp only [generate_quest_questions, hfind]
    rw [if_pos hlocked]
  · intro hai
    simp only [evaluate_quest, hfind, hai]

/-- A checklist payload for the C1 state. -/
def c1chk : Checklist :=
  { intro := "i", subtitle := "s", checklist := ["a", "b", "c"], minChecks := 3 }

/-- A locked quest that nevertheless carries a generated checklist. -/
def c1quest : Quest :=
  { id := "q1", vip_id := "v1", agent_id := some ("a1"), title := "t",
    category := "future_safety_net", quest_order := 1, is_locked := true,
    status := "pending", ai_questions := some c1chk, user_answers := none,
    checked_count := 0, ai_evaluation := none, completed_at := none }

/-- Store holding the locked-with-checklist quest and its client. -/
def c1db : DB :=
  { users := [{ id := "v1", name := "kim", created_by := some ("a1") }],
    quests := [c1quest], health := [], notifications := [] }

/-- An evaluation oracle that always passes. -/
def passOracle : EvalOracle := fun _ _ _ _ c t =>
  { passed := true, score := (c : ℤ), total := (t : ℤ), message := "ok", nextStep := "next" }

/-- Counterexample to C1 as stated: on a locked quest carrying a
checklist, `evaluate` is not rejected with a Locked error — it succeeds
and mutates the quest (status flips to completed, the submitted answers
are stored) while `is_locked` is still true. -/
theorem c1_locked_rejection_counterexample :
    findQuest c1db ("q1") = some c1quest ∧
    c1quest.is_locked = true ∧
    (evaluate_quest passOracle ("n1") 5 ("q1") [0, 1, 2] c1db).toOption.isSome = true ∧
    (evaluate_quest passOracle ("n1") 5 ("q1") [0, 1, 2] c1db).toOption.all
      (fun p => (findQuest p.1 ("q1")).all
        (fun q => q.is_locked && (q.status == "completed") &&
          (q.user_answers == some [0, 1, 2]))) = true := by
  refine ⟨by decide, by decide, by decide, by decide⟩

/-- Witness for C1 (amended): on the concrete locked quest stripped of
its checklist, generation answers 403 and evaluation answers 400. -/
theorem c1_locked_rejection_witness :
    generate_quest_questions (fun _ _ _ => c1chk) ("q2")
        { c1db with quests := [{ c1quest with id := "q2", ai_questions := none }] } =
      .error (.http 403 ("Quest is locked")) ∧
    evaluate_quest passOracle ("n1") 5 ("q2")
        [0] { c1db with quests := [{ c1quest with id := "q2", ai_questions := none }] } =
      .error (.http 400 ("Questions not generated yet")) := by
  have h := c1_locked_rejection (fun _ _ _ => c1chk) passOracle ("n1") 5 ("q2") [0]
    { c1db with quests := [{ c1quest with id := "q2", ai_questions := none }] }
    { c1quest with id := "q2", ai_questions := none }
    (by decide) (by decide)
  exact ⟨h.1, h.2 rfl⟩

/-! ## Claim C3 — persistence loss reporting -/

/-- C3 (amended): when both the primary (Supabase) and the fallback
(local) writes of the health index fail, `complete_diagnosis` does not
report a failure: the exceptions are caught and logged, the store is
left unchanged, the session is discarded, and the success payload with
the computed scores is returned to the caller. -/
theorem c3_persistence_loss_returns_success
    (newId : String) (now : ℕ) (vip_id : String) (sessions : Sessions)
    (db : DB) (vip : User) (hu : findUser db vip_id = some vip) :
    complete_diagnosis false false newId now vip_id sessions db =
      .ok { db := db, sessions := popSession sessions vip_id,
            resp := { diagnosis_id := vip_id,
                      scores := aggregateDiagnosis (sessions vip_id),
                      message := "진단이 완료되었습니다." } } := by
  simp only [complete_diagnosis, hu]
  rfl

/-- A one-client store for the C3 state. -/
def c3db : DB :=
  { users := [{ id := "v1", name := "kim", created_by := none }],
    quests := [], health := [], notifications := [] }

/-- Counterexample to C3 as stated: with both writes failing the call
still returns a success outcome (the success message, the store
unchanged), not a failure. -/
theorem c3_persistence_loss_counterexample :
    (complete_diagnosis false false ("h9") 3 ("v1") (fun _ _ => none) c3db).toOption.isSome
      = true ∧
    (complete_diagnosis false false ("h9") 3 ("v1") (fun _ _ => none) c3db).toOption.all
      (fun o => o.db == c3db && (o.resp.message == "진단이 완료되었습니다.")) = true := by
  have h := c3_persistence_loss_returns_success ("h9") 3 ("v1") (fun _ _ => none) c3db
    { id := "v1", name := "kim", created_by := none } (by decide)
  rw [h]
  exact ⟨rfl, by decide⟩

/-- Witness for C3 (amended): the concrete double-failure call returns
exactly the success outcome with the all-50 aggregate of the empty
session. -/
theorem c3_persistence_loss_returns_success_witness :
    complete_diagnosis false false ("h9") 3 ("v1") (fun _ _ => none) c3db =
      .ok { db := c3db, sessions := popSession (fun _ _ => none) ("v1"),
            resp := { diagnosis_id := "v1",
                      scores := aggregateDiagnosis (fun _ => none),
                      message := "진단이 완료되었습니다." } } :=
  c3_persistence_loss_returns_success ("h9") 3 ("v1") (fun _ _ => none) c3db
    { id := "v1", name := "kim", created_by := none } (by decide)

/-! ## Claim C10 — unguarded checklist indexing -/

/-- C10: when a submitted checked index is at least the number of
checklist items, the split in `QuestAgent.evaluate_answers` raises an
uncaught `IndexError` before the oracle is consulted and before any
field of the quest is assigned, so the operation fails with the
out-of-range error and no mutation reaches the store. -/
theorem c10_out_of_range_index
    (oracle : EvalOracle) (notifId : String) (now : ℕ) (quest_id : String)
    (checked : List ℤ) (db : DB) (quest : Quest) (aiq : Checklist) (vip : User) (i : ℤ)
    (hfind : findQuest db quest_id = some quest)
    (hai : quest.ai_questions = some aiq)
    (huser : findUser db quest.vip_id = some vip)
    (him : i ∈ checked) (hge : (aiq.checklist.length : ℤ) ≤ i) :
    evaluate_quest oracle notifId now quest_id checked db =
      .error (.py .indexError) := by
  have hnone : pyGet? aiq.checklist i = none := by
    have h0 : ¬ i < 0 := by omega
    unfold pyGet?
    simp only [if_neg h0]
    rw [if_neg (by omega)]
  have he : evaluate_answers oracle vip.name quest.category aiq.checklist checked =
      .error .indexError := by
    unfold evaluate_answers
    rw [mapOrFail_eq_none him hnone]
  simp only [evaluate_quest, hfind, hai, huser, he]

/-- An unlocked quest with a two-item checklist, for the C10 witness. -/
def c10quest : Quest :=
  { id := "q3", vip_id := "v1", agent_id := some ("a1"), title := "t",
    category := "future_safety_net", quest_order := 1, is_locked := false,
    status := "pending",
    ai_questions := some { intro := "i", subtitle := "s", checklist := ["a", "b"], minChecks := 3 },
    user_answers := none, checked_count := 0, ai_evaluation := none, completed_at := none }

/-- Store holding `c10quest` and its client. -/
def c10db : DB :=
  { users := [{ id := "v1", name := "kim", created_by := some ("a1") }],
    quests := [c10quest], health := [], notifications := [] }

/-- Witness for C10: submitting checked index 5 against the two-item
checklist makes the evaluation fail with the uncaught index error. -/
theorem c10_out_of_range_index_witness :
    evaluate_quest passOracle ("n1") 5 ("q3") [5] c10db = .error (.py .indexError) :=
  c10_out_of_range_index passOracle ("n1") 5 ("q3") [5] c10db c10quest
    { intro := "i", subtitle := "s", checklist := ["a", "b"], minChecks := 3 }
    { id := "v1", name := "kim", created_by := some ("a1") } 5
    (by decide) (by decide) (by decide) (by decide) (by decide)

/-! ## Claim C2 — unlocking the next quest -/

/-- The quest record as stored by a passed evaluation: answers, count
and verdict recorded, status completed, timestamp set. -/
def questAfterPass (quest : Quest) (checked : List ℤ) (ev : Evaluation) (now : ℕ) : Quest :=
  { quest with
    user_answers := some checked, checked_count := checked.length,
    ai_evaluation := some ev, status := "completed", completed_at := some now }

/-- The completion notification inserted by a passed evaluation. -/
def completionNoti (notifId : String) (quest : Quest) (ev : Evaluation) : Notification :=
  { id := notifId, title := "🎉 \x27" ++ quest.title ++ "\x27 미션 완료!",
    content := ev.message, target := "vip", created_by := quest.agent_id }

theorem updateFirst_updateFirst_eq_map {p1 p2 : α → Bool} {c : α} {g : α → α}
    (hc : p2 c = false) :
    ∀ {l : List α}, l.countP p1 ≤ 1 → l.countP p2 ≤ 1 →
      updateFirst p2 g (updateFirst p1 (fun _ => c) l) =
        l.map (fun a => if p1 a then c else if p2 a then g a else a) := by
  intro l
  induction l with
  | nil => intro h1 h2; rfl
  | cons x xs ih =>
    intro h1 h2
    have h1c : xs.countP p1 + (if p1 x = true then 1 else 0) ≤ 1 := by
      rw [← List.countP_cons]
      exact h1
    have h2c : xs.countP p2 + (if p2 x = true then 1 else 0) ≤ 1 := by
      rw [← List.countP_cons]
      exact h2
    have hcne : ¬ p2 c = true := by simp [hc]
    by_cases hp1 : p1 x = true
    · have hz1 : xs.countP p1 = 0 := by
        rw [if_pos hp1] at h1c
        omega
      rw [show updateFirst p1 (fun _ => c) (x :: xs) = c :: xs by simp [updateFirst, hp1]]
      rw [show updateFirst p2 g (c :: xs) = c :: updateFirst p2 g xs by
        simp [updateFirst, hcne]]
      have h2xs : xs.countP p2 ≤ 1 := by omega
      rw [List.map_cons, if_pos hp1, updateFirst_eq_map h2xs]
      refine congrArg (c :: ·) (List.map_congr_left ?_)
      intro a ha
      rw [if_neg (show ¬ p1 a = true from fun hpa => by
        have : 0 < xs.countP p1 := List.countP_pos_iff.mpr ⟨a, ha, hpa⟩
        omega)]
    · by_cases hp2 : p2 x = true
      · have hz2 : xs.countP p2 = 0 := by
          rw [if_pos hp2] at h2c
          omega
        rw [show updateFirst p1 (fun _ => c) (x :: xs) =
            x :: updateFirst p1 (fun _ => c) xs by simp [updateFirst, hp1]]
        rw [show updateFirst p2 g (x :: updateFirst p1 (fun _ => c) xs) =
            g x :: updateFirst p1 (fun _ => c) xs by simp [updateFirst, hp2]]
        have h1xs : xs.countP p1 ≤ 1 := by omega
        rw [List.map_cons, if_neg hp1, if_pos hp2, updateFirst_eq_map h1xs]
        refine congrArg (g x :: ·) (List.map_congr_left ?_)
        intro a ha
        by_cases hpa1 : p1 a = true
        · rw [if_pos hpa1, if_pos hpa1]
        · rw [if_neg hpa1, if_neg hpa1,
            if_neg (show ¬ p2 a = true from fun hpa => by
              have : 0 < xs.countP p2 := List.countP_pos_iff.mpr ⟨a, ha, hpa⟩
              omega)]
      · have h1xs : xs.countP p1 ≤ 1 := by omega
        have h2xs : xs.countP p2 ≤ 1 := by omega
        rw [show updateFirst p1 (fun _ => c) (x :: xs) =
            x :: updateFirst p1 (fun _ => c) xs by simp [updateFirst, hp1]]
        rw [show updateFirst p2 g (x :: updateFirst p1 (fun _ => c) xs) =
            x :: updateFirst p2 g (updateFirst p1 (fun _ => c) xs) by
          simp [updateFirst, hp2]]
        rw [List.map_cons, if_neg hp1, if_neg hp2, ih h1xs h2xs]

/-- C2 (amended): when an evaluation passes, the quest is completed and
exactly the (unique) quest of the same client at the next order index
has its lock cleared, all in the same operation; when no quest exists at
the next order index the operation succeeds with no further unlock; the
explicit manual-completion override (`complete_quest`) does not unlock
anything — it never changes any quest's `is_locked` flag. -/
theorem c2_unlock_next
    (oracle : EvalOracle) (notifId : String) (now : ℕ) (quest_id : String)
    (checked : List ℤ) (db : DB) (quest : Quest) (aiq : Checklist) (vip : User)
    (ev : Evaluation)
    (hfind : findQuest db quest_id = some quest)
    (hai : quest.ai_questions = some aiq)
    (huser : findUser db quest.vip_id = some vip)
    (heval : evaluate_answers oracle vip.name quest.category aiq.checklist checked = .ok ev)
    (hpassed : ev.passed = true)
    (hid : db.quests.countP (fun q => q.id == quest_id) ≤ 1) :
    (db.quests.countP
        (fun q => q.vip_id == quest.vip_id && q.quest_order == quest.quest_order + 1) ≤ 1 →
      evaluate_quest oracle notifId now quest_id checked db =
        .ok ({ db with
               quests := db.quests.map (fun q =>
                 if q.id == quest_id then questAfterPass quest checked ev now
                 else if q.vip_id == quest.vip_id && q.quest_order == quest.quest_order + 1 then
                   { q with is_locked := false }
                 else q),
               notifications := db.notifications ++ [completionNoti notifId quest ev] }, ev)) ∧
    (db.quests.countP
        (fun q => q.vip_id == quest.vip_id && q.quest_order == quest.quest_order + 1) = 0 →
      evaluate_quest oracle notifId now quest_id checked db =
        .ok ({ db with
               quests := db.quests.map (fun q =>
                 if q.id == quest_id then questAfterPass quest checked ev now else q),
               notifications := db.notifications ++ [completionNoti notifId quest ev] }, ev)) ∧
    (∀ (now2 : ℕ) (qid2 : String) (db2 db3 : DB) (msg : String),
      complete_quest now2 qid2 db2 = .ok (db3, msg) →
      db3.quests.map (fun q => q.is_locked) = db2.quests.map (fun q => q.is_locked)) := by
  have hA : db.quests.countP
      (fun q => q.vip_id == quest.vip_id && q.quest_order == quest.quest_order + 1) ≤ 1 →
      evaluate_quest oracle notifId now quest_id checked db =
        .ok ({ db with
               quests := db.quests.map (fun q =>
                 if q.id == quest_id then questAfterPass quest checked ev now
                 else if q.vip_id == quest.vip_id && q.quest_order == quest.quest_order + 1 then
                   { q with is_locked := false }
                 else q),
               notifications := db.notifications ++ [completionNoti notifId quest ev] }, ev) := by
    intro hnext
    simp only [evaluate_quest, hfind, hai, huser, heval]
    rw [if_pos hpassed]
    rw [← hai]
    rw [@updateFirst_updateFirst_eq_map Quest
      (fun q => q.id == quest_id)
      (fun q => q.vip_id == quest.vip_id && q.quest_order == quest.quest_order + 1)
      ({ quest with
         user_answers := some checked, checked_count := checked.length,
         ai_evaluation := some ev, status := "completed", completed_at := some now })
      (fun q => { q with is_locked := false })
      (by simp) db.quests hid hnext]
    rfl
  refine ⟨hA, ?_, ?_⟩
  · intro hnext0
    have hnomem : ∀ a ∈ db.quests,
        ¬ (a.vip_id == quest.vip_id && a.quest_order == quest.quest_order + 1) = true := by
      intro a ha hpa
      have : 0 < db.quests.countP
          (fun q => q.vip_id == quest.vip_id && q.quest_order == quest.quest_order + 1) :=
        List.countP_pos_iff.mpr ⟨a, ha, hpa⟩
      omega
    rw [hA (by omega)]
    have hmapeq : db.quests.map (fun q =>
        if q.id == quest_id then questAfterPass quest checked ev now
        else if q.vip_id == quest.vip_id && q.quest_order == quest.quest_order + 1 then
          { q with is_locked := false }
        else q) =
        db.quests.map (fun q =>
          if q.id == quest_id then questAfterPass quest checked ev now else q) := by
      refine List.map_congr_left ?_
      intro a ha
      by_cases hpa1 : (a.id == quest_id) = true
      · rw [if_pos hpa1, if_pos hpa1]
      · rw [if_neg hpa1, if_neg hpa1, if_neg (hnomem a ha)]
    rw [hmapeq]
  · intro now2 qid2 db2 db3 msg hcall
    unfold complete_quest at hcall
    cases hfq : findQuest db2 qid2 with
    | none =>
      rw [hfq] at hcall
      simp at hcall
    | some q0 =>
      rw [hfq] at hcall
      simp only [Except.ok.injEq, Prod.mk.injEq] at hcall
      obtain ⟨hdb, _⟩ := hcall
      rw [← hdb]
      show (updateFirst (fun q => q.id == qid2)
          (fun q => { q with status := "completed", completed_at := some now2 })
          db2.quests).map (fun q => q.is_locked) = db2.quests.map (fun q => q.is_locked)
      exact @map_updateFirst Quest Bool (fun q => q.is_locked)
        (fun q => q.id == qid2)
        (fun q => { q with status := "completed", completed_at := some now2 })
        (fun a => rfl) db2.quests

/-- Two quests of one client at orders 1 and 2, order 2 locked, for the
C2 counterexample. -/
def c2quest1 : Quest :=
  { id := "cq1", vip_id := "v1", agent_id := some ("a1"), title := "t1",
    category := "future_safety_net", quest_order := 1, is_locked := false,
    status := "pending", ai_questions := none, user_answers := none,
    checked_count := 0, ai_evaluation := none, completed_at := none }

/-- The locked order-2 quest of the C2 counterexample store. -/
def c2quest2 : Quest :=
  { id := "cq2", vip_id := "v1", agent_id := some ("a1"), title := "t2",
    category := "emotional_anchor", quest_order := 2, is_locked := true,
    status := "pending", ai_questions := none, user_answers := none,
    checked_count := 0, ai_evaluation := none, completed_at := none }

/-- Store for the C2 counterexample. -/
def c2db : DB :=
  { users := [{ id := "v1", name := "kim", created_by := some ("a1") }],
    quests := [c2quest1, c2quest2], health := [], notifications := [] }

/-- Counterexample to C2 as stated: completing the order-1 quest through
the manual-completion override transitions it from not-completed to
completed, yet the order-2 quest stays locked in the resulting store. -/
theorem c2_unlock_next_counterexample :
    c2quest1.status ≠ "completed" ∧ c2quest2.is_locked = true ∧
    (complete_quest 9 ("cq1") c2db).toOption.isSome = true ∧
    (complete_quest 9 ("cq1") c2db).toOption.all
      (fun p => (findQuest p.1 ("cq1")).all (fun q => q.status == "completed") &&
        (findQuest p.1 ("cq2")).all (fun q => q.is_locked)) = true := by
  refine ⟨by decide, by decide, by decide, by decide⟩

/-- A generated checklist for the C2 witness quests. -/
def c2chk : Checklist :=
  { intro := "i", subtitle := "s", checklist := ["a", "b", "c"], minChecks := 3 }

/-- The client row of the C2 witness stores. -/
def c2user : User := { id := "v1", name := "kim", created_by := some ("a1") }

/-- Unlocked order-1 quest with a checklist, for the C2 witness. -/
def c2equest1 : Quest :=
  { id := "e1", vip_id := "v1", agent_id := some ("a1"), title := "t1",
    category := "future_safety_net", quest_order := 1, is_locked := false,
    status := "pending", ai_questions := some c2chk, user_answers := none,
    checked_count := 0, ai_evaluation := none, completed_at := none }

/-- Store with the order-1 quest and a locked order-2 quest. -/
def c2edb : DB :=
  { users := [c2user], quests := [c2equest1, c2quest2], health := [], notifications := [] }

/-- A terminal-order quest (no successor), for the C2 witness. -/
def c2tquest : Quest := { c2equest1 with id := "e6", quest_order := 6 }

/-- Store holding only the terminal-order quest. -/
def c2tdb : DB :=
  { users := [c2user], quests := [c2tquest], health := [], notifications := [] }

/-- The verdict `passOracle` returns on the three-item checklist. -/
def c2ev : Evaluation :=
  { passed := true, score := 3, total := 3, message := "ok", nextStep := "next" }

/-- Witness for C2 (amended): a passed evaluation of the order-1 quest
completes it and unlocks the order-2 quest; a passed evaluation of the
terminal quest succeeds with no unlock; the manual override leaves every
lock flag unchanged. -/
theorem c2_unlock_next_witness :
    ((evaluate_quest passOracle ("n1") 7 ("e1") [0, 1, 2] c2edb).toOption.all
      (fun p => (findQuest p.1 ("e1")).all (fun q => q.status == "completed") &&
        (findQuest p.1 ("e2")).all (fun q => q.is_locked == false)) = true) ∧
    ((evaluate_quest passOracle ("n1") 7 ("e6") [0, 1, 2] c2tdb).toOption.isSome = true) ∧
    (({ c2db with
        quests := [{ c2quest1 with status := "completed", completed_at := some 9 },
          c2quest2] } : DB).quests.map (fun q => q.is_locked) =
      c2db.quests.map (fun q => q.is_locked)) := by
  have h := c2_unlock_next passOracle ("n1") 7 ("e1") [0, 1, 2] c2edb c2equest1 c2chk
    c2user c2ev (by decide) (by decide) (by decide) (by decide) (by decide) (by decide)
  have h2 := c2_unlock_next passOracle ("n1") 7 ("e6") [0, 1, 2] c2tdb c2tquest c2chk
    c2user c2ev (by decide) (by decide) (by decide) (by decide) (by decide) (by decide)
  refine ⟨?_, ?_, ?_⟩
  · rw [h.1 (by decide)]
    decide
  · rw [h2.2.1 (by decide)]
    decide
  · exact h.2.2 9 ("cq1") c2db
      { c2db with
        quests := [{ c2quest1 with status := "completed", completed_at := some 9 },
          c2quest2] }
      ("Quest completed!") (by decide)
